/-
Verification of the OptionsAnalyzer pricing library.

Shallow embedding of the two source files:
  * `Equity.py`  — class `EquityOption` (Black-Scholes-Merton with continuous
    dividend yield), class `VolatilityAnalyzer` (z_score).
  * `FX.py`      — class `Option` (Black-Scholes, no dividend term; embedded
    here as `FXOption` because `Option` is taken by Lean's core type),
    classes `Strategy`, `RiskReversal`, `Straddle`, `Butterfly`,
    class `VolatilityAnalyzer` (z_score, break_even).

Python floats are modelled as real numbers.  `scipy.stats.norm.pdf` and
`scipy.stats.norm.cdf` are modelled by the exact standard normal density and
its cumulative integral.  A method that can raise is embedded with result type
`Except Err ℝ`; a method that can fall off the end of the `if`/`elif` chain
without returning (Python then yields `None`, or hits an unbound local) is
embedded with result type `Option ℝ`, `none` marking the undefined case.
-/
import Mathlib

open MeasureTheory

noncomputable section

/-- Error kinds surfaced by the library: `invalidArgument` models the
`ValueError("Option type must be 'call' or 'put'.")` raised by the pricing
methods, `notFound` models the `ValueError("No implied volatility found ...")`
raised by `z_score` for a missing strike. -/
inductive Err where
  | invalidArgument
  | notFound
deriving DecidableEq

/-- Standard normal probability density, the model of `scipy.stats.norm.pdf`. -/
def normPDF (x : ℝ) : ℝ := Real.exp (-(x ^ 2) / 2) / Real.sqrt (2 * Real.pi)

/-- Standard normal cumulative distribution function, the model of
`scipy.stats.norm.cdf`. -/
def normCDF (x : ℝ) : ℝ := ∫ t in Set.Iic x, normPDF t

/-- The fields of `Equity.py`'s `EquityOption.__init__`. -/
structure EquityOption where
  strike : ℝ
  expiry : ℝ
  option_type : String
  implied_vol : ℝ
  spot : ℝ
  interest_rate : ℝ
  dividend_yield : ℝ

namespace EquityOption

/-- `EquityOption.d1_d2` from `Equity.py`. -/
def d1_d2 (o : EquityOption) : ℝ × ℝ :=
  let d1 := (Real.log (o.spot / o.strike) +
      (o.interest_rate - o.dividend_yield + 0.5 * o.implied_vol ^ 2) * o.expiry) /
      (o.implied_vol * Real.sqrt o.expiry)
  let d2 := d1 - o.implied_vol * Real.sqrt o.expiry
  (d1, d2)

/-- `EquityOption.black_scholes_merton` from `Equity.py`; the final `else`
branch raises `ValueError`, embedded as `Err.invalidArgument`. -/
def black_scholes_merton (o : EquityOption) : Except Err ℝ :=
  let d := o.d1_d2
  if o.option_type = "call" then
    .ok (o.spot * Real.exp (-o.dividend_yield * o.expiry) * normCDF d.1 -
      o.strike * Real.exp (-o.interest_rate * o.expiry) * normCDF d.2)
  else if o.option_type = "put" then
    .ok (o.strike * Real.exp (-o.interest_rate * o.expiry) * normCDF (-d.2) -
      o.spot * Real.exp (-o.dividend_yield * o.expiry) * normCDF (-d.1))
  else
    .error .invalidArgument

/-- `EquityOption.delta` from `Equity.py`; for an option type that is neither
call nor put the Python method falls through and returns `None`. -/
def delta (o : EquityOption) : Option ℝ :=
  let d := o.d1_d2
  if o.option_type = "call" then
    some (Real.exp (-o.dividend_yield * o.expiry) * normCDF d.1)
  else if o.option_type = "put" then
    some (Real.exp (-o.dividend_yield * o.expiry) * (normCDF d.1 - 1))
  else
    none

/-- `EquityOption.gamma` from `Equity.py`; type-independent, never fails. -/
def gamma (o : EquityOption) : ℝ :=
  let d := o.d1_d2
  normPDF d.1 / (o.spot * o.implied_vol * Real.sqrt o.expiry)

/-- `EquityOption.vega` from `Equity.py`; type-independent, never fails. -/
def vega (o : EquityOption) : ℝ :=
  let d := o.d1_d2
  o.spot * Real.exp (-o.dividend_yield * o.expiry) * normPDF d.1 *
    Real.sqrt o.expiry / 100

/-- `EquityOption.theta` from `Equity.py`; for an option type that is neither
call nor put the local `theta` is never bound and the trailing
`return theta / 365` fails (unbound local), embedded as `none`. -/
def theta (o : EquityOption) : Option ℝ :=
  let d := o.d1_d2
  if o.option_type = "call" then
    some ((-(o.spot * normPDF d.1 * o.implied_vol *
        Real.exp (-o.dividend_yield * o.expiry)) / (2 * Real.sqrt o.expiry) -
      o.interest_rate * o.strike * Real.exp (-o.interest_rate * o.expiry) * normCDF d.2 +
      o.dividend_yield * o.spot * Real.exp (-o.dividend_yield * o.expiry) * normCDF d.1) / 365)
  else if o.option_type = "put" then
    some ((-(o.spot * normPDF d.1 * o.implied_vol *
        Real.exp (-o.dividend_yield * o.expiry)) / (2 * Real.sqrt o.expiry) +
      o.interest_rate * o.strike * Real.exp (-o.interest_rate * o.expiry) * normCDF (-d.2) -
      o.dividend_yield * o.spot * Real.exp (-o.dividend_yield * o.expiry) * normCDF (-d.1)) / 365)
  else
    none

/-- `EquityOption.rho` from `Equity.py`; for an unrecognized option type the
local `rho` is never bound and `return rho / 100` fails, embedded as `none`. -/
def rho (o : EquityOption) : Option ℝ :=
  let d := o.d1_d2
  if o.option_type = "call" then
    some (o.strike * o.expiry * Real.exp (-o.interest_rate * o.expiry) * normCDF d.2 / 100)
  else if o.option_type = "put" then
    some (-o.strike * o.expiry * Real.exp (-o.interest_rate * o.expiry) * normCDF (-d.2) / 100)
  else
    none

end EquityOption

/-- The fields of `FX.py`'s `Option.__init__` (no dividend yield).  The class
is called `Option` in the source; renamed here only because `Option` already
names Lean's core type. -/
structure FXOption where
  strike : ℝ
  expiry : ℝ
  option_type : String
  implied_vol : ℝ
  spot : ℝ
  interest_rate : ℝ

namespace FXOption

/-- `Option.d1_d2` from `FX.py`. -/
def d1_d2 (o : FXOption) : ℝ × ℝ :=
  let d1 := (Real.log (o.spot / o.strike) +
      (o.interest_rate + 0.5 * o.implied_vol ^ 2) * o.expiry) /
      (o.implied_vol * Real.sqrt o.expiry)
  let d2 := d1 - o.implied_vol * Real.sqrt o.expiry
  (d1, d2)

/-- `Option.black_scholes` from `FX.py`; the spot term carries no discount
factor; the final `else` raises `ValueError`, embedded as `Err.invalidArgument`. -/
def black_scholes (o : FXOption) : Except Err ℝ :=
  let d := o.d1_d2
  if o.option_type = "call" then
    .ok (o.spot * normCDF d.1 -
      o.strike * Real.exp (-o.interest_rate * o.expiry) * normCDF d.2)
  else if o.option_type = "put" then
    .ok (o.strike * Real.exp (-o.interest_rate * o.expiry) * normCDF (-d.2) -
      o.spot * normCDF (-d.1))
  else
    .error .invalidArgument

/-- `Option.delta` from `FX.py`; returns `None` on an unrecognized type. -/
def delta (o : FXOption) : Option ℝ :=
  let d := o.d1_d2
  if o.option_type = "call" then
    some (normCDF d.1)
  else if o.option_type = "put" then
    some (normCDF d.1 - 1)
  else
    none

/-- `Option.gamma` from `FX.py`; type-independent, never fails. -/
def gamma (o : FXOption) : ℝ :=
  let d := o.d1_d2
  normPDF d.1 / (o.spot * o.implied_vol * Real.sqrt o.expiry)

/-- `Option.vega` from `FX.py`; type-independent, never fails. -/
def vega (o : FXOption) : ℝ :=
  let d := o.d1_d2
  o.spot * normPDF d.1 * Real.sqrt o.expiry / 100

/-- `Option.theta` from `FX.py`; unbound local on an unrecognized type,
embedded as `none`. -/
def theta (o : FXOption) : Option ℝ :=
  let d := o.d1_d2
  if o.option_type = "call" then
    some ((-(o.spot * normPDF d.1 * o.implied_vol) / (2 * Real.sqrt o.expiry) -
      o.interest_rate * o.strike * Real.exp (-o.interest_rate * o.expiry) * normCDF d.2) / 365)
  else if o.option_type = "put" then
    some ((-(o.spot * normPDF d.1 * o.implied_vol) / (2 * Real.sqrt o.expiry) +
      o.interest_rate * o.strike * Real.exp (-o.interest_rate * o.expiry) * normCDF (-d.2)) / 365)
  else
    none

/-- `Option.rho` from `FX.py`; unbound local on an unrecognized type,
embedded as `none`. -/
def rho (o : FXOption) : Option ℝ :=
  let d := o.d1_d2
  if o.option_type = "call" then
    some (o.strike * o.expiry * Real.exp (-o.interest_rate * o.expiry) * normCDF d.2 / 100)
  else if o.option_type = "put" then
    some (-o.strike * o.expiry * Real.exp (-o.interest_rate * o.expiry) * normCDF (-d.2) / 100)
  else
    none

end FXOption

/-- `Strategy.__init__` from `FX.py`: an ordered list of option legs. -/
structure Strategy where
  options : List FXOption

/-- The generator sum inside `Strategy.strategy_price`:
`sum(option.black_scholes() for option in self.options)`.  Python's `sum`
consumes the generator left to right; the first leg whose `black_scholes`
raises aborts the whole sum with that leg's error. -/
def sum_prices : List FXOption → Except Err ℝ
  | [] => .ok 0
  | o :: rest => do
    let v ← o.black_scholes
    let w ← sum_prices rest
    .ok (v + w)

/-- The generator sum inside `Strategy.strategy_delta`:
`sum(option.delta() for option in self.options)`.  A leg whose `delta` is
undefined (`None`) makes the Python sum fail (`None + float`); embedded in the
`Option` monad. -/
def sum_deltas : List FXOption → Option ℝ
  | [] => some 0
  | o :: rest => do
    let v ← o.delta
    let w ← sum_deltas rest
    some (v + w)

namespace Strategy

/-- `Strategy.strategy_price` from `FX.py`. -/
def strategy_price (s : Strategy) : Except Err ℝ := sum_prices s.options

/-- `Strategy.strategy_delta` from `FX.py`. -/
def strategy_delta (s : Strategy) : Option ℝ := sum_deltas s.options

end Strategy

/-- `RiskReversal.__init__` from `FX.py`: `super().__init__([put, call])`. -/
def RiskReversal (put call : FXOption) : Strategy := ⟨[put, call]⟩

/-- `Straddle.__init__` from `FX.py`: `super().__init__([put, call])`. -/
def Straddle (put call : FXOption) : Strategy := ⟨[put, call]⟩

/-- `Butterfly.__init__` from `FX.py`:
`super().__init__([lower_strike, middle_strike, middle_strike, upper_strike])`. -/
def Butterfly (lower_strike middle_strike upper_strike : FXOption) : Strategy :=
  ⟨[lower_strike, middle_strike, middle_strike, upper_strike]⟩

/-- `np.mean` over a list of floats: sum divided by length. -/
def npMean (xs : List ℝ) : ℝ := xs.sum / xs.length

/-- `np.std` over a list of floats: the population standard deviation
(`ddof=0`), `sqrt(mean((x - mean(x))**2))`. -/
def npStd (xs : List ℝ) : ℝ :=
  Real.sqrt ((xs.map fun x => (x - npMean xs) ^ 2).sum / xs.length)

/-- `dict.get` on an association-list model of a Python dict (keys unique in
a real dict; lookup returns the first binding). -/
def dictGet {K : Type} [DecidableEq K] : List (K × ℝ) → K → Option ℝ
  | [], _ => none
  | kv :: rest, k => if kv.1 = k then some kv.2 else dictGet rest k

namespace VolatilityAnalyzer

/-- `VolatilityAnalyzer.z_score`, textually identical in `Equity.py` and
`FX.py`: population mean and std over `implied_vols.values()`, then
`implied_vols.get(strike)`; a missing strike raises
`ValueError("No implied volatility found ...")`, embedded as `Err.notFound`.
(The Python code computes the statistics before the lookup; both are pure, so
the order is immaterial.) -/
def z_score {K : Type} [DecidableEq K] (implied_vols : List (K × ℝ)) (strike : K) :
    Except Err ℝ :=
  let vol_values := implied_vols.map Prod.snd
  let mean_vol := npMean vol_values
  let std_vol := npStd vol_values
  match dictGet implied_vols strike with
  | none => .error .notFound
  | some strike_vol => .ok ((strike_vol - mean_vol) / std_vol)

/-- `VolatilityAnalyzer.break_even` from `FX.py`:
`return strategy.strategy_price() / underlying_move`, with no check on
`underlying_move`.  The only failure path is a failing leg inside
`strategy_price`; the division itself never raises (numpy float64 division
by zero yields a non-finite float, modelled by Lean's total real division). -/
def break_even (strategy : Strategy) (underlying_move : ℝ) : Except Err ℝ :=
  Except.map (fun p => p / underlying_move) strategy.strategy_price

end VolatilityAnalyzer

/-! Analytic facts about the standard normal density and its CDF. -/

theorem normPDF_nonneg (x : ℝ) : 0 ≤ normPDF x := by
  unfold normPDF
  positivity

theorem normPDF_neg (x : ℝ) : normPDF (-x) = normPDF x := by
  simp [normPDF, neg_sq]

theorem normPDF_eq_gauss :
    normPDF = fun x => Real.exp (-(2⁻¹ : ℝ) * x ^ 2) * (Real.sqrt (2 * Real.pi))⁻¹ := by
  funext x
  have h : -(x ^ 2) / 2 = -(2⁻¹ : ℝ) * x ^ 2 := by ring
  rw [normPDF, h, div_eq_mul_inv]

theorem integrable_normPDF : Integrable normPDF := by
  rw [normPDF_eq_gauss]
  exact (integrable_exp_neg_mul_sq (by norm_num)).mul_const _

theorem integral_normPDF : (∫ x, normPDF x) = 1 := by
  rw [normPDF_eq_gauss, integral_mul_right, integral_gaussian,
    show (Real.pi / 2⁻¹) = 2 * Real.pi by ring]
  exact mul_inv_cancel₀ (Real.sqrt_ne_zero'.mpr (by positivity))

theorem normCDF_neg_eq (x : ℝ) : normCDF (-x) = ∫ t in Set.Ioi x, normPDF t := by
  have h := integral_comp_neg_Iic (-x) normPDF
  rw [neg_neg] at h
  rw [normCDF, ← h]
  exact setIntegral_congr_fun measurableSet_Iic fun t _ => (normPDF_neg t).symm

/-- The CDF identity `Φ(x) + Φ(-x) = 1`, the analytic heart of put-call
parity for the embedded pricing formulas. -/
theorem normCDF_add_neg (x : ℝ) : normCDF x + normCDF (-x) = 1 := by
  rw [normCDF, normCDF_neg_eq, ← integral_normPDF,
    ← setIntegral_union (Set.Iic_disjoint_Ioi le_rfl) measurableSet_Ioi
      integrable_normPDF.integrableOn integrable_normPDF.integrableOn,
    Set.Iic_union_Ioi, Measure.restrict_univ]

/-! Claim theorems. -/

/-- C1: for every equity option leg with positive implied_vol and expiry,
`black_scholes_merton` returns `S·e^(-qT)·Φ(d1) − K·e^(-rT)·Φ(d2)` when
`option_type` is call and `K·e^(-rT)·Φ(-d2) − S·e^(-qT)·Φ(-d1)` when it is
put, where `d1 = (ln(spot/strike) + (r - q + 0.5·σ²)·T) / (σ·sqrt(T))` and
`d2 = d1 - σ·sqrt(T)`. -/
theorem equity_price_formula (o : EquityOption)
    (hvol : 0 < o.implied_vol) (hexp : 0 < o.expiry) (d1 d2 : ℝ)
    (hd1 : d1 = (Real.log (o.spot / o.strike) +
      (o.interest_rate - o.dividend_yield + 0.5 * o.implied_vol ^ 2) * o.expiry) /
      (o.implied_vol * Real.sqrt o.expiry))
    (hd2 : d2 = d1 - o.implied_vol * Real.sqrt o.expiry) :
    (o.option_type = "call" →
      o.black_scholes_merton = .ok (o.spot * Real.exp (-o.dividend_yield * o.expiry) * normCDF d1 -
        o.strike * Real.exp (-o.interest_rate * o.expiry) * normCDF d2)) ∧
    (o.option_type = "put" →
      o.black_scholes_merton = .ok (o.strike * Real.exp (-o.interest_rate * o.expiry) * normCDF (-d2) -
        o.spot * Real.exp (-o.dividend_yield * o.expiry) * normCDF (-d1))) := by
  subst hd2 hd1
  refine ⟨fun h => ?_, fun h => ?_⟩ <;>
    simp [EquityOption.black_scholes_merton, EquityOption.d1_d2, h]

/-- The value of d1 for an equity or FX leg whose fields are all 1; used by
concrete witnesses. -/
def sampleD1 : ℝ :=
  (Real.log (1 / 1) + (1 - 1 + 0.5 * 1 ^ 2) * 1) / (1 * Real.sqrt 1)

/-- Witness for C1 at an all-ones call leg and an all-ones put leg. -/
theorem equity_price_formula_witness :
    (0:ℝ) < 1 ∧
    (EquityOption.black_scholes_merton ⟨1, 1, "call", 1, 1, 1, 1⟩ =
      .ok ((1:ℝ) * Real.exp (-1 * 1) * normCDF sampleD1 -
        1 * Real.exp (-1 * 1) * normCDF (sampleD1 - 1 * Real.sqrt 1))) ∧
    (EquityOption.black_scholes_merton ⟨1, 1, "put", 1, 1, 1, 1⟩ =
      .ok ((1:ℝ) * Real.exp (-1 * 1) * normCDF (-(sampleD1 - 1 * Real.sqrt 1)) -
        1 * Real.exp (-1 * 1) * normCDF (-sampleD1))) :=
  ⟨one_pos,
   (equity_price_formula ⟨1, 1, "call", 1, 1, 1, 1⟩ one_pos one_pos
     sampleD1 (sampleD1 - 1 * Real.sqrt 1) rfl rfl).1 rfl,
   (equity_price_formula ⟨1, 1, "put", 1, 1, 1, 1⟩ one_pos one_pos
     sampleD1 (sampleD1 - 1 * Real.sqrt 1) rfl rfl).2 rfl⟩

/-- C2: for every FX option leg with positive implied_vol and expiry,
`black_scholes` returns `S·Φ(d1) − K·e^(-rT)·Φ(d2)` for a call and
`K·e^(-rT)·Φ(-d2) − S·Φ(-d1)` for a put, with
`d1 = (ln(spot/strike) + (r + 0.5·σ²)·T)/(σ·sqrt(T))`, `d2 = d1 - σ·sqrt(T)`;
the spot term carries no discount factor at all. -/
theorem fx_price_formula (o : FXOption)
    (hvol : 0 < o.implied_vol) (hexp : 0 < o.expiry) (d1 d2 : ℝ)
    (hd1 : d1 = (Real.log (o.spot / o.strike) +
      (o.interest_rate + 0.5 * o.implied_vol ^ 2) * o.expiry) /
      (o.implied_vol * Real.sqrt o.expiry))
    (hd2 : d2 = d1 - o.implied_vol * Real.sqrt o.expiry) :
    (o.option_type = "call" →
      o.black_scholes = .ok (o.spot * normCDF d1 -
        o.strike * Real.exp (-o.interest_rate * o.expiry) * normCDF d2)) ∧
    (o.option_type = "put" →
      o.black_scholes = .ok (o.strike * Real.exp (-o.interest_rate * o.expiry) * normCDF (-d2) -
        o.spot * normCDF (-d1))) := by
  subst hd2 hd1
  refine ⟨fun h => ?_, fun h => ?_⟩ <;>
    simp [FXOption.black_scholes, FXOption.d1_d2, h]

/-- The value of d1 for an all-ones FX leg; used by concrete witnesses. -/
def sampleFXD1 : ℝ :=
  (Real.log (1 / 1) + (1 + 0.5 * 1 ^ 2) * 1) / (1 * Real.sqrt 1)

/-- Witness for C2 at an all-ones call leg and an all-ones put leg. -/
theorem fx_price_formula_witness :
    (0:ℝ) < 1 ∧
    (FXOption.black_scholes ⟨1, 1, "call", 1, 1, 1⟩ =
      .ok ((1:ℝ) * normCDF sampleFXD1 -
        1 * Real.exp (-1 * 1) * normCDF (sampleFXD1 - 1 * Real.sqrt 1))) ∧
    (FXOption.black_scholes ⟨1, 1, "put", 1, 1, 1⟩ =
      .ok ((1:ℝ) * Real.exp (-1 * 1) * normCDF (-(sampleFXD1 - 1 * Real.sqrt 1)) -
        1 * normCDF (-sampleFXD1))) :=
  ⟨one_pos,
   (fx_price_formula ⟨1, 1, "call", 1, 1, 1⟩ one_pos one_pos
     sampleFXD1 (sampleFXD1 - 1 * Real.sqrt 1) rfl rfl).1 rfl,
   (fx_price_formula ⟨1, 1, "put", 1, 1, 1⟩ one_pos one_pos
     sampleFXD1 (sampleFXD1 - 1 * Real.sqrt 1) rfl rfl).2 rfl⟩

/-- C3: put-call parity.  For two legs of the same model agreeing on all
fields except `option_type`, one a call and one a put, with positive
implied_vol and expiry, `Call.Price − Put.Price` equals
`S·e^(−qT) − K·e^(−rT)` for the equity model and `S − K·e^(−rT)` for the FX
model.  The difference is expressed monadically so that the statement also
records that both prices are defined. -/
theorem put_call_parity :
    (∀ K T σ S r q : ℝ, 0 < σ → 0 < T →
      (EquityOption.black_scholes_merton ⟨K, T, "call", σ, S, r, q⟩).bind
        (fun cv => (EquityOption.black_scholes_merton ⟨K, T, "put", σ, S, r, q⟩).map
          (fun pv => cv - pv)) =
        .ok (S * Real.exp (-q * T) - K * Real.exp (-r * T))) ∧
    (∀ K T σ S r : ℝ, 0 < σ → 0 < T →
      (FXOption.black_scholes ⟨K, T, "call", σ, S, r⟩).bind
        (fun cv => (FXOption.black_scholes ⟨K, T, "put", σ, S, r⟩).map
          (fun pv => cv - pv)) =
        .ok (S - K * Real.exp (-r * T))) := by
  constructor
  · intro K T σ S r q hσ hT
    have hdd : EquityOption.d1_d2 ⟨K, T, "put", σ, S, r, q⟩ =
        EquityOption.d1_d2 ⟨K, T, "call", σ, S, r, q⟩ := rfl
    have hc : EquityOption.black_scholes_merton ⟨K, T, "call", σ, S, r, q⟩ =
        .ok (S * Real.exp (-q * T) *
            normCDF (EquityOption.d1_d2 ⟨K, T, "call", σ, S, r, q⟩).1 -
          K * Real.exp (-r * T) *
            normCDF (EquityOption.d1_d2 ⟨K, T, "call", σ, S, r, q⟩).2) := by
      simp [EquityOption.black_scholes_merton]
    have hp : EquityOption.black_scholes_merton ⟨K, T, "put", σ, S, r, q⟩ =
        .ok (K * Real.exp (-r * T) *
            normCDF (-(EquityOption.d1_d2 ⟨K, T, "call", σ, S, r, q⟩).2) -
          S * Real.exp (-q * T) *
            normCDF (-(EquityOption.d1_d2 ⟨K, T, "call", σ, S, r, q⟩).1)) := by
      simp [EquityOption.black_scholes_merton, hdd]
    rw [hc, hp]
    have h1 := normCDF_add_neg (EquityOption.d1_d2 ⟨K, T, "call", σ, S, r, q⟩).1
    have h2 := normCDF_add_neg (EquityOption.d1_d2 ⟨K, T, "call", σ, S, r, q⟩).2
    show Except.ok _ = Except.ok _
    rw [Except.ok.injEq]
    linear_combination (S * Real.exp (-q * T)) * h1 - (K * Real.exp (-r * T)) * h2
  · intro K T σ S r hσ hT
    have hdd : FXOption.d1_d2 ⟨K, T, "put", σ, S, r⟩ =
        FXOption.d1_d2 ⟨K, T, "call", σ, S, r⟩ := rfl
    have hc : FXOption.black_scholes ⟨K, T, "call", σ, S, r⟩ =
        .ok (S * normCDF (FXOption.d1_d2 ⟨K, T, "call", σ, S, r⟩).1 -
          K * Real.exp (-r * T) *
            normCDF (FXOption.d1_d2 ⟨K, T, "call", σ, S, r⟩).2) := by
      simp [FXOption.black_scholes]
    have hp : FXOption.black_scholes ⟨K, T, "put", σ, S, r⟩ =
        .ok (K * Real.exp (-r * T) *
            normCDF (-(FXOption.d1_d2 ⟨K, T, "call", σ, S, r⟩).2) -
          S * normCDF (-(FXOption.d1_d2 ⟨K, T, "call", σ, S, r⟩).1)) := by
      simp [FXOption.black_scholes, hdd]
    rw [hc, hp]
    have h1 := normCDF_add_neg (FXOption.d1_d2 ⟨K, T, "call", σ, S, r⟩).1
    have h2 := normCDF_add_neg (FXOption.d1_d2 ⟨K, T, "call", σ, S, r⟩).2
    show Except.ok _ = Except.ok _
    rw [Except.ok.injEq]
    linear_combination S * h1 - (K * Real.exp (-r * T)) * h2

/-- Witness for C3 at all-ones legs of each model. -/
theorem put_call_parity_witness :
    (0:ℝ) < 1 ∧
    ((EquityOption.black_scholes_merton ⟨1, 1, "call", 1, 1, 1, 1⟩).bind
      (fun cv => (EquityOption.black_scholes_merton ⟨1, 1, "put", 1, 1, 1, 1⟩).map
        (fun pv => cv - pv)) = .ok ((1:ℝ) * Real.exp (-1 * 1) - 1 * Real.exp (-1 * 1))) ∧
    ((FXOption.black_scholes ⟨1, 1, "call", 1, 1, 1⟩).bind
      (fun cv => (FXOption.black_scholes ⟨1, 1, "put", 1, 1, 1⟩).map
        (fun pv => cv - pv)) = .ok ((1:ℝ) - 1 * Real.exp (-1 * 1))) :=
  ⟨one_pos,
   put_call_parity.1 1 1 1 1 1 1 one_pos one_pos,
   put_call_parity.2 1 1 1 1 1 one_pos one_pos⟩

/-- C9: for every leg of either model with positive spot, implied_vol and
expiry, Gamma and Vega are both ≥ 0, for calls and puts alike; both
operations are independent of `option_type`. -/
theorem gamma_vega_nonneg :
    (∀ o : EquityOption, 0 < o.spot → 0 < o.implied_vol → 0 < o.expiry →
      (0 ≤ o.gamma ∧ 0 ≤ o.vega) ∧
      ∀ s : String,
        (EquityOption.mk o.strike o.expiry s o.implied_vol o.spot o.interest_rate
          o.dividend_yield).gamma = o.gamma ∧
        (EquityOption.mk o.strike o.expiry s o.implied_vol o.spot o.interest_rate
          o.dividend_yield).vega = o.vega) ∧
    (∀ o : FXOption, 0 < o.spot → 0 < o.implied_vol → 0 < o.expiry →
      (0 ≤ o.gamma ∧ 0 ≤ o.vega) ∧
      ∀ s : String,
        (FXOption.mk o.strike o.expiry s o.implied_vol o.spot o.interest_rate).gamma =
          o.gamma ∧
        (FXOption.mk o.strike o.expiry s o.implied_vol o.spot o.interest_rate).vega =
          o.vega) := by
  refine ⟨fun o hS hσ hT => ⟨⟨?_, ?_⟩, fun s => ⟨rfl, rfl⟩⟩,
    fun o hS hσ hT => ⟨⟨?_, ?_⟩, fun s => ⟨rfl, rfl⟩⟩⟩
  · unfold EquityOption.gamma normPDF
    positivity
  · unfold EquityOption.vega normPDF
    positivity
  · unfold FXOption.gamma normPDF
    positivity
  · unfold FXOption.vega normPDF
    positivity

/-- Witness for C9 at all-ones legs. -/
theorem gamma_vega_nonneg_witness :
    (0:ℝ) < 1 ∧
    (0 ≤ EquityOption.gamma ⟨1, 1, "call", 1, 1, 1, 1⟩ ∧
      0 ≤ EquityOption.vega ⟨1, 1, "call", 1, 1, 1, 1⟩) ∧
    (0 ≤ FXOption.gamma ⟨1, 1, "put", 1, 1, 1⟩ ∧
      0 ≤ FXOption.vega ⟨1, 1, "put", 1, 1, 1⟩) ∧
    EquityOption.gamma ⟨1, 1, "put", 1, 1, 1, 1⟩ =
      EquityOption.gamma ⟨1, 1, "call", 1, 1, 1, 1⟩ :=
  ⟨one_pos,
   (gamma_vega_nonneg.1 ⟨1, 1, "call", 1, 1, 1, 1⟩ one_pos one_pos one_pos).1,
   (gamma_vega_nonneg.2 ⟨1, 1, "put", 1, 1, 1⟩ one_pos one_pos one_pos).1,
   ((gamma_vega_nonneg.1 ⟨1, 1, "call", 1, 1, 1, 1⟩ one_pos one_pos one_pos).2 "put").1⟩

/-- C4: for every leg of either model whose `option_type` is neither
`"call"` nor `"put"`, Price fails with `Err.invalidArgument`, while
Delta/Theta/Rho have no defined value (`none`: Python `delta` returns `None`,
`theta`/`rho` die on an unbound local before returning); Gamma and Vega never
consult `option_type`, returning the same value for any type. -/
theorem invalid_option_type (t : String) (hc : t ≠ "call") (hp : t ≠ "put") :
    (∀ o : EquityOption, o.option_type = t →
      o.black_scholes_merton = .error .invalidArgument ∧
      o.delta = none ∧ o.theta = none ∧ o.rho = none) ∧
    (∀ o : FXOption, o.option_type = t →
      o.black_scholes = .error .invalidArgument ∧
      o.delta = none ∧ o.theta = none ∧ o.rho = none) ∧
    (∀ (o : EquityOption) (s : String),
      (EquityOption.mk o.strike o.expiry s o.implied_vol o.spot o.interest_rate
        o.dividend_yield).gamma = o.gamma ∧
      (EquityOption.mk o.strike o.expiry s o.implied_vol o.spot o.interest_rate
        o.dividend_yield).vega = o.vega) ∧
    (∀ (o : FXOption) (s : String),
      (FXOption.mk o.strike o.expiry s o.implied_vol o.spot o.interest_rate).gamma =
        o.gamma ∧
      (FXOption.mk o.strike o.expiry s o.implied_vol o.spot o.interest_rate).vega =
        o.vega) := by
  refine ⟨fun o h => ?_, fun o h => ?_, fun o s => ⟨rfl, rfl⟩, fun o s => ⟨rfl, rfl⟩⟩
  · simp [EquityOption.black_scholes_merton, EquityOption.delta, EquityOption.theta,
      EquityOption.rho, h, hc, hp]
  · simp [FXOption.black_scholes, FXOption.delta, FXOption.theta,
      FXOption.rho, h, hc, hp]

/-- Witness for C4 at legs with the unrecognized option type `"x"`. -/
theorem invalid_option_type_witness :
    ("x" : String) ≠ "call" ∧ ("x" : String) ≠ "put" ∧
    (EquityOption.black_scholes_merton ⟨1, 1, "x", 1, 1, 1, 1⟩ = .error .invalidArgument ∧
      EquityOption.delta ⟨1, 1, "x", 1, 1, 1, 1⟩ = none ∧
      EquityOption.theta ⟨1, 1, "x", 1, 1, 1, 1⟩ = none ∧
      EquityOption.rho ⟨1, 1, "x", 1, 1, 1, 1⟩ = none) ∧
    (FXOption.black_scholes ⟨1, 1, "x", 1, 1, 1⟩ = .error .invalidArgument ∧
      FXOption.delta ⟨1, 1, "x", 1, 1, 1⟩ = none ∧
      FXOption.theta ⟨1, 1, "x", 1, 1, 1⟩ = none ∧
      FXOption.rho ⟨1, 1, "x", 1, 1, 1⟩ = none) ∧
    EquityOption.gamma ⟨1, 1, "call", 1, 1, 1, 1⟩ =
      EquityOption.gamma ⟨1, 1, "x", 1, 1, 1, 1⟩ ∧
    FXOption.vega ⟨1, 1, "call", 1, 1, 1⟩ = FXOption.vega ⟨1, 1, "x", 1, 1, 1⟩ :=
  ⟨by decide, by decide,
   (invalid_option_type "x" (by decide) (by decide)).1 ⟨1, 1, "x", 1, 1, 1, 1⟩ rfl,
   (invalid_option_type "x" (by decide) (by decide)).2.1 ⟨1, 1, "x", 1, 1, 1⟩ rfl,
   ((invalid_option_type "x" (by decide) (by decide)).2.2.1 ⟨1, 1, "x", 1, 1, 1, 1⟩ "call").1,
   ((invalid_option_type "x" (by decide) (by decide)).2.2.2 ⟨1, 1, "x", 1, 1, 1⟩ "call").2⟩

/-- Reduction of monadic bind on an `Except.ok`. -/
theorem okBind {α β : Type} (a : α) (f : α → Except Err β) :
    (Except.ok a : Except Err α) >>= f = f a := rfl

/-- Reduction of monadic bind on an `Except.error`. -/
theorem errorBind {α β : Type} (e : Err) (f : α → Except Err β) :
    (Except.error e : Except Err α) >>= f = Except.error e := rfl

/-- Reduction of `Except.map` on an `Except.ok`. -/
theorem exMapOk {α β : Type} (g : α → β) (a : α) :
    Except.map g (Except.ok a : Except Err α) = Except.ok (g a) := rfl

/-- Reduction of `Except.map` on an `Except.error`. -/
theorem exMapError {α β : Type} (g : α → β) (e : Err) :
    Except.map g (Except.error e : Except Err α) = (Except.error e : Except Err β) := rfl

/-- Reduction of `Except.bind` on an `Except.ok`. -/
theorem exBindOk {α β : Type} (a : α) (f : α → Except Err β) :
    (Except.ok a : Except Err α).bind f = f a := rfl

/-- Reduction of `Except.bind` on an `Except.error`. -/
theorem exBindError {α β : Type} (e : Err) (f : α → Except Err β) :
    (Except.error e : Except Err α).bind f = Except.error e := rfl

/-- Reduction of monadic bind on a `some`. -/
theorem someBind {α β : Type} (a : α) (f : α → Option β) : (some a >>= f) = f a := rfl

/-- Reduction of `Option.bind` on a `some`. -/
theorem optBindSome {α β : Type} (a : α) (f : α → Option β) : (some a).bind f = f a := rfl

/-- Reduction of `Option.map` on a `some`. -/
theorem optMapSome {α β : Type} (g : α → β) (a : α) : Option.map g (some a) = some (g a) := rfl

/-- The leg-wise price sum equals the monadic map-then-sum: the sum of every
leg's price when all succeed, and the first failing leg's error otherwise. -/
theorem sum_prices_eq (opts : List FXOption) :
    sum_prices opts = Except.map List.sum (opts.mapM FXOption.black_scholes) := by
  induction opts with
  | nil => rfl
  | cons o rest ih =>
    rw [sum_prices, List.mapM_cons, ih]
    cases o.black_scholes with
    | error e => rfl
    | ok v =>
      cases h : rest.mapM FXOption.black_scholes with
      | error e =>
        simp [h, okBind, errorBind, exMapError]
      | ok l =>
        simp [h, okBind, exMapOk, List.sum_cons]

/-- Delta analogue of `sum_prices_eq`, in the `Option` monad. -/
theorem sum_deltas_eq (opts : List FXOption) :
    sum_deltas opts = Option.map List.sum (opts.mapM FXOption.delta) := by
  induction opts with
  | nil => rfl
  | cons o rest ih =>
    rw [sum_deltas, List.mapM_cons, ih]
    cases o.delta with
    | none => rfl
    | some v =>
      cases h : rest.mapM FXOption.delta with
      | none =>
        simp [h]
      | some l =>
        simp [h, List.sum_cons]

/-- C5: `strategy_price` is the sum of each leg's Price and `strategy_delta`
the sum of each leg's Delta, taken over the legs in order; a failing leg fails
the whole aggregate with that leg's error and no partial result (`mapM`
semantics); `RiskReversal(put, call)` and `Straddle(put, call)` both build the
identical two-leg sequence `[put, call]`. -/
theorem strategy_aggregation :
    (∀ opts : List FXOption,
      Strategy.strategy_price ⟨opts⟩ =
        Except.map List.sum (opts.mapM FXOption.black_scholes) ∧
      Strategy.strategy_delta ⟨opts⟩ =
        Option.map List.sum (opts.mapM FXOption.delta)) ∧
    (∀ put call : FXOption,
      (RiskReversal put call).options = [put, call] ∧
      (Straddle put call).options = [put, call] ∧
      RiskReversal put call = Straddle put call) :=
  ⟨fun opts => ⟨sum_prices_eq opts, sum_deltas_eq opts⟩,
   fun _ _ => ⟨rfl, rfl, rfl⟩⟩

/-- C6: `Butterfly(lower, middle, upper)` has internal leg sequence
`[lower, middle, middle, upper]`, so the middle leg contributes exactly twice
to `strategy_price` and `strategy_delta` while the outer legs contribute
once each. -/
theorem butterfly_double_middle (l m u : FXOption) :
    (Butterfly l m u).options = [l, m, m, u] ∧
    Strategy.strategy_price (Butterfly l m u) =
      l.black_scholes.bind (fun a => m.black_scholes.bind (fun b =>
        u.black_scholes.map (fun c => a + 2 * b + c))) ∧
    Strategy.strategy_delta (Butterfly l m u) =
      l.delta.bind (fun a => m.delta.bind (fun b =>
        u.delta.map (fun c => a + 2 * b + c))) := by
  refine ⟨rfl, ?_, ?_⟩
  · show sum_prices [l, m, m, u] = _
    cases hl : l.black_scholes with
    | error e => simp [sum_prices, hl, okBind, errorBind, exBindError]
    | ok a =>
      cases hm : m.black_scholes with
      | error e => simp [sum_prices, hl, hm, okBind, errorBind, exBindOk, exBindError,
          exMapError]
      | ok b =>
        cases hu : u.black_scholes with
        | error e => simp [sum_prices, hl, hm, hu, okBind, errorBind, exBindOk,
            exBindError, exMapError]
        | ok c =>
          simp only [sum_prices, hl, hm, hu, okBind, exBindOk, exMapOk, Except.ok.injEq]
          ring
  · show sum_deltas [l, m, m, u] = _
    cases hl : l.delta with
    | none => simp [sum_deltas, hl]
    | some a =>
      cases hm : m.delta with
      | none => simp [sum_deltas, hl, hm]
      | some b =>
        cases hu : u.delta with
        | none => simp [sum_deltas, hl, hm, hu]
        | some c =>
          simp only [sum_deltas, hl, hm, hu, someBind, optBindSome, optMapSome,
            Option.some.injEq]
          ring

/-- C7: on a non-empty volatility surface with nonzero population standard
deviation, `z_score` returns `(volSurface[strike] − mean)/std` with `mean` the
population mean `Σv / N` and `std` the population standard deviation
`sqrt(Σ(v − mean)² / N)` (divide by `N`, not `N−1`) over all values, when the
strike is present; when the strike is absent it fails with `Err.notFound`. -/
theorem z_score_spec {K : Type} [DecidableEq K] (vols : List (K × ℝ)) (strike : K)
    (hne : vols ≠ []) (hstd : npStd (vols.map Prod.snd) ≠ 0) :
    (∀ v, dictGet vols strike = some v →
      VolatilityAnalyzer.z_score vols strike =
        .ok ((v - (vols.map Prod.snd).sum / (vols.map Prod.snd).length) /
          Real.sqrt (((vols.map Prod.snd).map fun x =>
              (x - (vols.map Prod.snd).sum / (vols.map Prod.snd).length) ^ 2).sum /
            (vols.map Prod.snd).length))) ∧
    (dictGet vols strike = none →
      VolatilityAnalyzer.z_score vols strike = .error .notFound) := by
  constructor
  · intro v hv
    simp [VolatilityAnalyzer.z_score, hv, npMean, npStd]
  · intro hv
    simp [VolatilityAnalyzer.z_score, hv]

/-- A two-point volatility surface used by the z-score witness. -/
def sampleVols : List (ℕ × ℝ) := [(95, 0), (100, 2)]

/-- The values of `sampleVols`. -/
def sampleVals : List ℝ := sampleVols.map Prod.snd

/-- The population standard deviation of the witness surface values `[0, 2]`
is 1 (mean 1, both squared deviations 1). -/
theorem sampleVols_std : npStd (sampleVols.map Prod.snd) = 1 := by
  rw [npStd, npMean]
  simp only [sampleVols, List.map_cons, List.map_nil, List.sum_cons, List.sum_nil,
    List.length_cons, List.length_nil]
  rw [Real.sqrt_eq_one]
  norm_num

/-- Witness for C7: strike 100 is present with value 2; strike 110 is absent. -/
theorem z_score_spec_witness :
    sampleVols ≠ [] ∧ npStd (sampleVols.map Prod.snd) ≠ 0 ∧
    VolatilityAnalyzer.z_score sampleVols 100 =
      .ok (((2:ℝ) - sampleVals.sum / sampleVals.length) /
        Real.sqrt ((sampleVals.map fun x =>
            (x - sampleVals.sum / sampleVals.length) ^ 2).sum / sampleVals.length)) ∧
    VolatilityAnalyzer.z_score sampleVols 110 = .error .notFound :=
  ⟨List.cons_ne_nil _ _,
   fun h => one_ne_zero (sampleVols_std ▸ h),
   (z_score_spec sampleVols 100 (List.cons_ne_nil _ _)
     (fun h => one_ne_zero (sampleVols_std ▸ h))).1 2 (by simp [sampleVols, dictGet]),
   (z_score_spec sampleVols 110 (List.cons_ne_nil _ _)
     (fun h => one_ne_zero (sampleVols_std ▸ h))).2 (by simp [sampleVols, dictGet])⟩

/-- A two-leg risk reversal over valid legs, for the break-even theorems. -/
def sampleStrat : Strategy :=
  RiskReversal ⟨1, 1, "put", 1, 1, 1⟩ ⟨1, 1, "call", 1, 1, 1⟩

/-- C8 counterexample: with `underlyingMove = 0` and a strategy of valid legs,
`break_even` does NOT fail with `Err.invalidArgument` — the code has no zero
check (`return strategy.strategy_price() / underlying_move`); the numpy
float64 division by zero emits a non-finite value, not an error. -/
theorem break_even_zero_not_invalidArgument :
    VolatilityAnalyzer.break_even sampleStrat 0 ≠ .error .invalidArgument := by
  intro h
  rw [show VolatilityAnalyzer.break_even sampleStrat 0 =
    Except.ok ((Strategy.strategy_price sampleStrat).toOption.get rfl / 0) from rfl] at h
  exact Except.noConfusion h

/-- C8 (amended): `break_even` returns `strategyPrice / underlyingMove`
whenever the strategy prices successfully — for any `underlyingMove`,
including 0, where no `InvalidArgument` error is raised (the reference lets
the float division produce a non-finite value) — and propagates a failing
strategy's own error. -/
theorem break_even_spec :
    (∀ (s : Strategy) (m v : ℝ), s.strategy_price = .ok v →
      VolatilityAnalyzer.break_even s m = .ok (v / m)) ∧
    (∀ (s : Strategy) (m : ℝ) (e : Err), s.strategy_price = .error e →
      VolatilityAnalyzer.break_even s m = .error e) := by
  constructor <;> intro s m x h <;>
    simp [VolatilityAnalyzer.break_even, h, exMapOk, exMapError]

/-- Witness for C8: the empty strategy prices to 0, so break-even at move 2
is `0 / 2`; a strategy holding a leg of unrecognized type fails and the error
propagates through `break_even`. -/
theorem break_even_spec_witness :
    Strategy.strategy_price ⟨[]⟩ = .ok 0 ∧
    VolatilityAnalyzer.break_even ⟨[]⟩ 2 = .ok (0 / 2) ∧
    Strategy.strategy_price ⟨[⟨1, 1, "x", 1, 1, 1⟩]⟩ = .error .invalidArgument ∧
    VolatilityAnalyzer.break_even ⟨[⟨1, 1, "x", 1, 1, 1⟩]⟩ 2 = .error .invalidArgument :=
  ⟨rfl,
   break_even_spec.1 ⟨[]⟩ 2 0 rfl,
   rfl,
   break_even_spec.2 ⟨[⟨1, 1, "x", 1, 1, 1⟩]⟩ 2 .invalidArgument rfl⟩

/-- The equity leg with the same fields as an FX leg and zero dividend yield;
the comparison map for the C10 refinement claim. -/
def toEquityLeg (f : FXOption) : EquityOption :=
  ⟨f.strike, f.expiry, f.option_type, f.implied_vol, f.spot, f.interest_rate, 0⟩

/-- C10: every FX-model operation returns exactly the value of the
corresponding equity-model operation on the leg with identical fields and
`dividend_yield = 0`: the FX model is the equity model specialized to zero
dividend yield, despite the structurally different formulas. -/
theorem fx_refines_equity_at_zero_dividend (f : FXOption) :
    (toEquityLeg f).black_scholes_merton = f.black_scholes ∧
    (toEquityLeg f).delta = f.delta ∧
    (toEquityLeg f).gamma = f.gamma ∧
    (toEquityLeg f).vega = f.vega ∧
    (toEquityLeg f).theta = f.theta ∧
    (toEquityLeg f).rho = f.rho := by
  have hd : EquityOption.d1_d2
      ⟨f.strike, f.expiry, f.option_type, f.implied_vol, f.spot, f.interest_rate, 0⟩ =
      f.d1_d2 := by
    simp [EquityOption.d1_d2, FXOption.d1_d2]
  refine ⟨?_, ?_, ?_, ?_, ?_, ?_⟩ <;>
    simp [toEquityLeg, hd, EquityOption.black_scholes_merton, FXOption.black_scholes,
      EquityOption.delta, FXOption.delta, EquityOption.gamma, FXOption.gamma,
      EquityOption.vega, FXOption.vega, EquityOption.theta, FXOption.theta,
      EquityOption.rho, FXOption.rho]

end
